import Mathlib

/-!
# Compliance-window computation: a shallow embedding

Embedding of the compliance core of the repository (the `addMonths`,
`computeCompliance` helpers and the `Project` record): a pure evaluator
that, given the regulatory cycle, category and approval date,
derives the expiration date of its grandfathering window, an approximate
months-remaining count, and a risk classification.

Modelling decisions, all dictated by the source:
* A JavaScript `Date` produced by parsing a `"YYYY-MM-DD"` string is a
  midnight-UTC instant; we represent such a date by its civil triple
  (year, month, day) and recover its `getTime()` value in milliseconds
  through the standard days-from-civil conversion.  An *Invalid Date*
  (`NaN` time value) is represented by `Option.none`.
* `dt.setMonth(m)` follows ECMAScript `MakeDay`: the month field is
  advanced (normalising the year) and the day-of-month is kept, days
  beyond the end of the target month overflowing into the following
  month.  For a day-of-month ≤ 31 the overflow spills at most one month.
* `Math.round(x)` rounds half-way cases toward `+∞`, i.e. it is
  `⌊x + 1/2⌋`.  The divisions performed by the source keep every
  half-way quotient exactly representable in binary64 and every other
  quotient far further from a half-way point than one ulp, so exact
  rational arithmetic is faithful.
* The source reads the clock (`new Date()`) inside `computeCompliance`;
  the embedding passes that instant, in milliseconds since the epoch, as
  the explicit argument `now`.
* On an unparseable `approvalDate` the source reaches
  `expires.toISOString()` with an Invalid Date and throws
  `RangeError: Invalid time value` before returning; the embedding
  returns `Except.error "Invalid time value"` on that path.
-/

/-- A civil (proleptic Gregorian) calendar date: the observable
`getUTCFullYear` / month / day fields of a valid midnight-UTC `Date`. -/
structure Civil where
  year : Int
  month : Int
  day : Int
deriving DecidableEq, Repr

/-- Gregorian leap-year test, as in ECMAScript date arithmetic. -/
def isLeap (y : Int) : Bool :=
  y % 4 == 0 && (y % 100 != 0 || y % 400 == 0)

/-- Number of days in month `m` (1-based) of year `y`. -/
def daysInMonth (y m : Int) : Int :=
  if m = 2 then (if isLeap y then 29 else 28)
  else if m = 4 ∨ m = 6 ∨ m = 9 ∨ m = 11 then 30
  else 31

/-- Days since the Unix epoch (1970-01-01) of a civil date; the Hinnant
`days_from_civil` algorithm, the arithmetic ECMAScript `MakeDay`
specifies.  All divisors are positive, so `/` (= `Int.ediv`) is floor
division, matching the reference algorithm.  The formula is linear in
`c.day`, so it also realises the `MakeDay` day overflow for `c.day`
outside `1 .. daysInMonth`. -/
def daysFromCivil (c : Civil) : Int :=
  let y := if c.month ≤ 2 then c.year - 1 else c.year
  let era := y / 400
  let yoe := y - era * 400
  let mp := (c.month + 9) % 12
  let doy := (153 * mp + 2) / 5 + c.day - 1
  let doe := yoe * 365 + yoe / 4 - yoe / 100 + doy
  era * 146097 + doe - 719468

/-- Milliseconds per day. -/
def msPerDay : Int := 1000 * 60 * 60 * 24

/-- The month-length constant `1000 * 60 * 60 * 24 * 30`. -/
def msPerMonth : Int := 1000 * 60 * 60 * 24 * 30

/-- Source `getTime()` of a midnight-UTC date, in milliseconds since epoch. -/
def Civil.getTime (c : Civil) : Int := msPerDay * daysFromCivil c

/-- Source `addMonths(d, months)`: `dt.setMonth(dt.getMonth() + months)`.
ECMAScript `setMonth` rebuilds the time value via
`MakeDay(year, newMonth, day)`: the month count is normalised into a
year and a month, and the kept day-of-month overflows into the following
month when the target month is shorter.  For input days `1 .. 31` the
overflow is at most 3 days, so a single month rollover suffices (the
`m2 = 12` rollover branch is unreachable since December has 31 days, and
is kept only to make the rollover total). -/
def addMonths (c : Civil) (months : Int) : Civil :=
  let mm := (c.month - 1) + months
  let y2 := c.year + mm / 12
  let m2 := mm % 12 + 1
  if c.day ≤ daysInMonth y2 m2 then ⟨y2, m2, c.day⟩
  else if m2 = 12 then ⟨y2 + 1, 1, c.day - daysInMonth y2 m2⟩
  else ⟨y2, m2 + 1, c.day - daysInMonth y2 m2⟩

/-- Numeric value of a decimal digit character. -/
def digitVal (c : Char) : Int := (c.toNat : Int) - 48

/-- Source `new Date(s)` on a date-only string: the ECMAScript
`YYYY-MM-DD` Date Time String production, which yields midnight UTC for
an in-range calendar date and an Invalid Date (`none`) otherwise.
Engine-specific legacy formats are outside this model; every string the
repository feeds the evaluator is of this shape. -/
def parseISODate (s : String) : Option Civil :=
  match s.data with
  | [y1, y2, y3, y4, h1, mo1, mo2, h2, d1, d2] =>
    if h1 = '-' ∧ h2 = '-' ∧
        (y1.isDigit ∧ y2.isDigit ∧ y3.isDigit ∧ y4.isDigit ∧
         mo1.isDigit ∧ mo2.isDigit ∧ d1.isDigit ∧ d2.isDigit) then
      let y := 1000 * digitVal y1 + 100 * digitVal y2 + 10 * digitVal y3 + digitVal y4
      let m := 10 * digitVal mo1 + digitVal mo2
      let d := 10 * digitVal d1 + digitVal d2
      if 1 ≤ m ∧ m ≤ 12 ∧ 1 ≤ d ∧ d ≤ daysInMonth y m then some ⟨y, m, d⟩
      else none
    else none
  | _ => none

/-- Source `Project` record.  `projectType` and `cycle` are string tags
(`"housing" | "modular"`, `"pre2026" | "post2026"` in the TypeScript
declarations); they are modelled as the runtime strings they are, since
the evaluator branches on string equality. -/
structure Project where
  id : String
  label : String
  unitId : Option String
  projectType : String
  cycle : String
  approvalDate : String
deriving DecidableEq, Repr

/-- Source `ProjectWithDerived`: the input record spread together with
the derived fields.  `expiresAt` is stored by the source as
`expires.toISOString()`; for the midnight-UTC dates produced here that
string is in bijection with the civil triple, which we keep instead. -/
structure ProjectWithDerived extends Project where
  expiresAt : Option Civil
  status : String
  monthsLeft : Option Int
deriving DecidableEq, Repr

/-- Source `Math.max(0, Math.round(diffMs / (1000*60*60*24*30)))`, the
months-left computation on a time difference in milliseconds.
`Math.round x = ⌊x + 1/2⌋`, and for a positive integer `M`,
`⌊a/M + 1/2⌋ = (2*a + M) / (2*M)` in floor division. -/
def jsMonthsLeft (diffMs : Int) : Int :=
  max 0 ((2 * diffMs + msPerMonth) / (2 * msPerMonth))

/-- Source `computeCompliance`, with the ambient clock passed in as
`now` (milliseconds since epoch).  The `Except.error` branch is the
`RangeError: Invalid time value` thrown by `expires.toISOString()` when
`approvalDate` did not parse (the interleaved `NaN` arithmetic on that
path — `expires < now` false, `monthsLeft` `NaN` — is unobservable,
since the function throws before returning). -/
def computeCompliance (p : Project) (now : Int) : Except String ProjectWithDerived :=
  if p.cycle = "post2026" then
    .ok ⟨p, none, "compliant", none⟩
  else
    match parseISODate p.approvalDate with
    | none => .error "Invalid time value"
    | some base =>
      let months : Int := if p.projectType = "housing" then 36 else 15
      let expires := addMonths base months
      let monthsLeft := jsMonthsLeft (expires.getTime - now)
      let status : String :=
        if expires.getTime < now then "expired"
        else if monthsLeft < 6 then "expiring"
        else "valid"
      .ok ⟨p, some expires, status, some monthsLeft⟩

/-- The risk ordering `valid < expiring < expired` of the
monotonicity property, as a numeric rank. -/
def riskRank (status : String) : Int :=
  if status = "expired" then 2
  else if status = "expiring" then 1
  else 0

/-- Spec-side month addition, following the words of the spec: "advance the
month field, and if the day-of-month does not exist in the target month
the date rolls into the following month" — i.e. the day number of the
first of the target month plus `(day − 1)` further days. -/
def specExpiryDay (c : Civil) (months : Int) : Int :=
  let mm := (c.month - 1) + months
  let y2 := c.year + mm / 12
  let m2 := mm % 12 + 1
  daysFromCivil ⟨y2, m2, 1⟩ + (c.day - 1)

/-- Spec-side months-remaining, following the words of the spec:
"round((expiresAt − now) in days / 30), clamped to ≥ 0", with exact
rational arithmetic and round-half-toward-`+∞`. -/
def specMonthsRemaining (expiresMs now : Int) : Int :=
  max 0 (round (((expiresMs - now : Int) : ℚ) / (msPerDay : Int) / 30))

example : daysFromCivil ⟨1970, 1, 1⟩ = 0 := by decide
example : daysFromCivil ⟨2022, 3, 15⟩ = 19066 := by decide
example : addMonths ⟨2022, 3, 15⟩ 36 = ⟨2025, 3, 15⟩ := by decide
example : addMonths ⟨2025, 1, 10⟩ 15 = ⟨2026, 4, 10⟩ := by decide
example : addMonths ⟨2022, 1, 31⟩ 1 = ⟨2022, 3, 3⟩ := by decide
example : parseISODate "2022-03-15" = some ⟨2022, 3, 15⟩ := by decide
example : parseISODate "2022-02-30" = none := by decide
example : parseISODate "garbage" = none := by decide

/-! ## Sanity of the date model -/

example : daysFromCivil ⟨2024, 6, 1⟩ = 19875 := by decide
example : daysFromCivil ⟨2025, 4, 15⟩ = 20193 := by decide
example : Civil.getTime ⟨2024, 6, 1⟩ = 1717200000000 := by decide

/-! ## C1 — post-cutover projects are permanently compliant -/

/-- C1: for every project whose `cycle` is `"post2026"`, evaluation
returns classification `compliant` with no `expiresAt` and no
`monthsLeft`, regardless of `approvalDate` and `projectType`. -/
theorem post2026_always_compliant (p : Project) (now : Int)
    (h : p.cycle = "post2026") :
    computeCompliance p now = .ok ⟨p, none, "compliant", none⟩ := by
  simp [computeCompliance, h]

/-- Witness for `post2026_always_compliant` at a concrete project. -/
theorem post2026_always_compliant_witness :
    computeCompliance ⟨"p9", "2026 Plan", none, "housing", "post2026", "total junk"⟩ 0 =
      .ok ⟨⟨"p9", "2026 Plan", none, "housing", "post2026", "total junk"⟩,
        none, "compliant", none⟩ :=
  post2026_always_compliant ⟨"p9", "2026 Plan", none, "housing", "post2026", "total junk"⟩ 0 rfl

/-! ## C5 — malformed approval dates propagate a failure -/

/-- C5: when `approvalDate` does not parse as a calendar date, the
evaluator propagates the failure (the `RangeError: Invalid time value`
raised at `toISOString`) instead of returning a result carrying a
misleading `expired` or `valid` classification. -/
theorem malformed_date_fails (p : Project) (now : Int)
    (hc : p.cycle ≠ "post2026") (hp : parseISODate p.approvalDate = none) :
    computeCompliance p now = .error "Invalid time value" := by
  simp [computeCompliance, hc, hp]

/-- Witness for `malformed_date_fails` at a concrete malformed date. -/
theorem malformed_date_fails_witness :
    computeCompliance ⟨"p1", "Bad", none, "housing", "pre2026", "not a date"⟩ 0 =
      .error "Invalid time value" :=
  malformed_date_fails ⟨"p1", "Bad", none, "housing", "pre2026", "not a date"⟩ 0
    (by decide) (by decide)

/-! ## C10 — months remaining can be zero without being expired -/

/-- C10: a concrete pre-cutover project (modular, approved 2024-01-15,
expiring 2025-04-15) evaluated 10 days before its expiration — `now`
strictly before `expiresAt`, gap under 15 days — classifies `expiring`
with `monthsLeft = 0`: the 30-day ratio rounds to zero while the strict
`expires < now` test is still false. -/
theorem expiring_with_zero_months :
    computeCompliance ⟨"pc", "Mod", none, "modular", "pre2026", "2024-01-15"⟩ 1743811200000 =
      .ok ⟨⟨"pc", "Mod", none, "modular", "pre2026", "2024-01-15"⟩,
        some ⟨2025, 4, 15⟩, "expiring", some 0⟩ ∧
    1743811200000 < Civil.getTime ⟨2025, 4, 15⟩ ∧
    Civil.getTime ⟨2025, 4, 15⟩ - 1743811200000 < 15 * msPerDay :=
  ⟨by rfl, by decide, by decide⟩

/-! ## C8 — worked examples -/

/-- C8 counterexample: the housing project approved 2022-03-15, evaluated
at `now` = 2024-06-01, yields `monthsLeft = 10`, not the 9 the claim
states (287 days / 30 = 9.57, which `Math.round` takes to 10). -/
theorem worked_example_months_ten :
    Civil.getTime ⟨2024, 6, 1⟩ = 1717200000000 ∧
    computeCompliance ⟨"p1", "2022 Plan", none, "housing", "pre2026", "2022-03-15"⟩ 1717200000000 =
      .ok ⟨⟨"p1", "2022 Plan", none, "housing", "pre2026", "2022-03-15"⟩,
        some ⟨2025, 3, 15⟩, "valid", some 10⟩ ∧
    some (10 : Int) ≠ some (9 : Int) :=
  ⟨by decide, by rfl, by decide⟩

/-- C8 (amended): the housing project approved 2022-03-15 expires
2025-03-15; at 2024-06-01 it is `valid` with `monthsLeft = 10`; at
2025-01-01 it is `expiring` with `monthsLeft = 2`; at 2025-04-01 it is
`expired`.  The modular project approved 2025-01-10 expires
2026-04-10. -/
theorem worked_examples :
    computeCompliance ⟨"p1", "2022 Plan", none, "housing", "pre2026", "2022-03-15"⟩
        (Civil.getTime ⟨2024, 6, 1⟩) =
      .ok ⟨⟨"p1", "2022 Plan", none, "housing", "pre2026", "2022-03-15"⟩,
        some ⟨2025, 3, 15⟩, "valid", some 10⟩ ∧
    computeCompliance ⟨"p1", "2022 Plan", none, "housing", "pre2026", "2022-03-15"⟩
        (Civil.getTime ⟨2025, 1, 1⟩) =
      .ok ⟨⟨"p1", "2022 Plan", none, "housing", "pre2026", "2022-03-15"⟩,
        some ⟨2025, 3, 15⟩, "expiring", some 2⟩ ∧
    computeCompliance ⟨"p1", "2022 Plan", none, "housing", "pre2026", "2022-03-15"⟩
        (Civil.getTime ⟨2025, 4, 1⟩) =
      .ok ⟨⟨"p1", "2022 Plan", none, "housing", "pre2026", "2022-03-15"⟩,
        some ⟨2025, 3, 15⟩, "expired", some 0⟩ ∧
    computeCompliance ⟨"p2", "Mod", none, "modular", "pre2026", "2025-01-10"⟩
        (Civil.getTime ⟨2025, 2, 1⟩) =
      .ok ⟨⟨"p2", "Mod", none, "modular", "pre2026", "2025-01-10"⟩,
        some ⟨2026, 4, 10⟩, "valid", some 14⟩ :=
  ⟨by rfl, by rfl, by rfl, by rfl⟩

/-! ## C6 — unknown enum tags are defaulted, not rejected -/

/-- C6 counterexample: a project whose `projectType` (`"commercial"`) and
`cycle` (`"cycle2031"`) are both outside the documented enumerations is
not rejected: evaluation succeeds, treating the cycle as pre-cutover and
granting the 15-month (modular) window. -/
theorem unknown_tags_not_rejected :
    computeCompliance ⟨"p3", "Odd", none, "commercial", "cycle2031", "2022-03-15"⟩ 0 =
      .ok ⟨⟨"p3", "Odd", none, "commercial", "cycle2031", "2022-03-15"⟩,
        some ⟨2023, 6, 15⟩, "valid", some 651⟩ := by
  rfl

/-- C6 (amended): for any project with either tag outside its
enumeration — `projectType` outside `{housing, modular}` or `cycle`
outside `{pre2026, post2026}` — evaluation never rejects the unknown
tag.  It silently defaults instead: a `post2026` cycle returns
`compliant` whatever the `projectType`; any other cycle value is
treated as pre-cutover, where a `housing` project keeps the 36-month
window and every other `projectType` silently receives the 15-month
(modular) one.  The only failure still possible on these inputs is the
unparseable-date error, never a rejection of the tag. -/
theorem unknown_tags_default_silently (p : Project) (now : Int)
    (hbad : (p.projectType ≠ "housing" ∧ p.projectType ≠ "modular") ∨
            (p.cycle ≠ "pre2026" ∧ p.cycle ≠ "post2026")) :
    (p.cycle = "post2026" →
      computeCompliance p now = .ok ⟨p, none, "compliant", none⟩) ∧
    (p.cycle ≠ "post2026" →
      (parseISODate p.approvalDate = none ∧
        computeCompliance p now = .error "Invalid time value") ∨
      (∃ c, parseISODate p.approvalDate = some c ∧
        computeCompliance p now = .ok ⟨p,
          some (addMonths c (if p.projectType = "housing" then 36 else 15)),
          (if (addMonths c (if p.projectType = "housing" then 36 else 15)).getTime < now
           then "expired"
           else if jsMonthsLeft
              ((addMonths c (if p.projectType = "housing" then 36 else 15)).getTime - now) < 6
           then "expiring"
           else "valid"),
          some (jsMonthsLeft
            ((addMonths c (if p.projectType = "housing" then 36 else 15)).getTime - now))⟩)) := by
  constructor
  · intro h
    simp [computeCompliance, h]
  · intro h
    cases hp : parseISODate p.approvalDate with
    | none => exact Or.inl ⟨rfl, by simp [computeCompliance, h, hp]⟩
    | some c => exact Or.inr ⟨c, rfl, by simp [computeCompliance, h, hp]⟩

/-- Witness for `unknown_tags_default_silently` at a concrete project
with tags outside both enumerations. -/
theorem unknown_tags_default_silently_witness :
    ((⟨"p3", "Odd", none, "commercial", "cycle2031", "2022-03-15"⟩ : Project).cycle
        = "post2026" →
      computeCompliance ⟨"p3", "Odd", none, "commercial", "cycle2031", "2022-03-15"⟩ 0 =
        .ok ⟨⟨"p3", "Odd", none, "commercial", "cycle2031", "2022-03-15"⟩,
          none, "compliant", none⟩) ∧
    ((⟨"p3", "Odd", none, "commercial", "cycle2031", "2022-03-15"⟩ : Project).cycle
        ≠ "post2026" →
      (parseISODate
          (⟨"p3", "Odd", none, "commercial", "cycle2031", "2022-03-15"⟩ : Project).approvalDate
          = none ∧
        computeCompliance ⟨"p3", "Odd", none, "commercial", "cycle2031", "2022-03-15"⟩ 0 =
          .error "Invalid time value") ∨
      (∃ c, parseISODate
          (⟨"p3", "Odd", none, "commercial", "cycle2031", "2022-03-15"⟩ : Project).approvalDate
          = some c ∧
        computeCompliance ⟨"p3", "Odd", none, "commercial", "cycle2031", "2022-03-15"⟩ 0 =
          .ok ⟨⟨"p3", "Odd", none, "commercial", "cycle2031", "2022-03-15"⟩,
            some (addMonths c
              (if (⟨"p3", "Odd", none, "commercial", "cycle2031", "2022-03-15"⟩ :
                  Project).projectType = "housing" then 36 else 15)),
            (if (addMonths c
                (if (⟨"p3", "Odd", none, "commercial", "cycle2031", "2022-03-15"⟩ :
                    Project).projectType = "housing" then 36 else 15)).getTime < 0
             then "expired"
             else if jsMonthsLeft
                ((addMonths c
                  (if (⟨"p3", "Odd", none, "commercial", "cycle2031", "2022-03-15"⟩ :
                      Project).projectType = "housing" then 36 else 15)).getTime - 0) < 6
             then "expiring"
             else "valid"),
            some (jsMonthsLeft
              ((addMonths c
                (if (⟨"p3", "Odd", none, "commercial", "cycle2031", "2022-03-15"⟩ :
                    Project).projectType = "housing" then 36 else 15)).getTime - 0))⟩)) :=
  unknown_tags_default_silently
    ⟨"p3", "Odd", none, "commercial", "cycle2031", "2022-03-15"⟩ 0
    (Or.inl ⟨by decide, by decide⟩)

/-! ## C3 — the classification rule for pre-cutover projects -/

/-- C3: for every pre-cutover project, the classification is `expired`
exactly when `expiresAt` is strictly before `now`; otherwise `expiring`
exactly when `monthsLeft < 6`; otherwise `valid`. -/
theorem classification_rule (p : Project) (now : Int) (c : Civil)
    (hc : p.cycle = "pre2026") (hp : parseISODate p.approvalDate = some c) :
    ∃ out e ml, computeCompliance p now = .ok out ∧
      out.expiresAt = some e ∧ out.monthsLeft = some ml ∧
      (out.status = "expired" ↔ e.getTime < now) ∧
      (out.status = "expiring" ↔ ¬ e.getTime < now ∧ ml < 6) ∧
      (out.status = "valid" ↔ ¬ e.getTime < now ∧ ¬ ml < 6) := by
  have hc2 : ¬ p.cycle = "post2026" := by rw [hc]; decide
  set e := addMonths c (if p.projectType = "housing" then 36 else 15) with he
  set ml := jsMonthsLeft (e.getTime - now) with hml
  refine ⟨⟨p, some e,
      (if e.getTime < now then "expired" else if ml < 6 then "expiring" else "valid"),
      some ml⟩, e, ml, ?_, rfl, rfl, ?_, ?_, ?_⟩
  · simp [computeCompliance, hc2, hp, he, hml]
  all_goals split_ifs with h1 h2 <;> simp_all

/-- Witness for `classification_rule`: the housing project approved
2022-03-15, evaluated at 2024-06-01. -/
theorem classification_rule_witness :
    ∃ out e ml,
      computeCompliance ⟨"p1", "2022 Plan", none, "housing", "pre2026", "2022-03-15"⟩
          1717200000000 = .ok out ∧
      out.expiresAt = some e ∧ out.monthsLeft = some ml ∧
      (out.status = "expired" ↔ e.getTime < 1717200000000) ∧
      (out.status = "expiring" ↔ ¬ e.getTime < 1717200000000 ∧ ml < 6) ∧
      (out.status = "valid" ↔ ¬ e.getTime < 1717200000000 ∧ ¬ ml < 6) :=
  classification_rule ⟨"p1", "2022 Plan", none, "housing", "pre2026", "2022-03-15"⟩
    1717200000000 ⟨2022, 3, 15⟩ rfl (by decide)

/-! ## C9 — the actual `expiring` boundary -/

/-- C9 counterexample: the modular project approved 2024-01-15 expires
2025-04-15, which is exactly 6 calendar months minus 1 day after
`now` = 2024-10-16 (adding 6 months to `now` gives 2025-04-16, one day
past the expiry); yet evaluation at that instant classifies the project
`valid`, not `expiring` (the 181-day gap rounds to 6 months, and
`6 < 6` fails). -/
theorem six_month_boundary_counterexample :
    addMonths ⟨2024, 10, 16⟩ 6 = ⟨2025, 4, 16⟩ ∧
    Civil.getTime ⟨2025, 4, 15⟩ = Civil.getTime ⟨2025, 4, 16⟩ - msPerDay ∧
    Civil.getTime ⟨2024, 10, 16⟩ = 1729036800000 ∧
    computeCompliance ⟨"pc", "Mod", none, "modular", "pre2026", "2024-01-15"⟩ 1729036800000 =
      .ok ⟨⟨"pc", "Mod", none, "modular", "pre2026", "2024-01-15"⟩,
        some ⟨2025, 4, 15⟩, "valid", some 6⟩ ∧
    ("valid" : String) ≠ "expiring" :=
  ⟨by decide, by decide, by decide, by rfl, by decide⟩

/-- C9 (amended): for every pre-cutover project the boundary implied by
`monthsLeft < 6` under the 30-day month sits at 165 days (5.5 × 30):
the classification is `expiring` exactly when `now ≤ expiresAt` and
`expiresAt − now < 165` days, and `valid` exactly when
`expiresAt − now ≥ 165` days.  A project expiring 6 months minus 1 day
from `now` (179–181 days on any reading of "month") is therefore
`valid`, not `expiring`. -/
theorem expiring_boundary (p : Project) (now : Int) (c : Civil)
    (hc : p.cycle = "pre2026") (hp : parseISODate p.approvalDate = some c) :
    ∃ out e, computeCompliance p now = .ok out ∧ out.expiresAt = some e ∧
      (out.status = "expiring" ↔ now ≤ e.getTime ∧ e.getTime - now < 165 * msPerDay) ∧
      (out.status = "valid" ↔ 165 * msPerDay ≤ e.getTime - now) := by
  have hc2 : ¬ p.cycle = "post2026" := by rw [hc]; decide
  set e := addMonths c (if p.projectType = "housing" then 36 else 15) with he
  set ml := jsMonthsLeft (e.getTime - now) with hml
  refine ⟨⟨p, some e,
      (if e.getTime < now then "expired" else if ml < 6 then "expiring" else "valid"),
      some ml⟩, e, ?_, rfl, ?_, ?_⟩
  · simp [computeCompliance, hc2, hp, he, hml]
  all_goals
    rw [hml]
    simp only [jsMonthsLeft, msPerMonth, msPerDay]
    split_ifs with h1 h2 <;> simp_all <;> omega

/-- Witness for `expiring_boundary`: the modular project approved
2024-01-15, evaluated at 2024-10-16. -/
theorem expiring_boundary_witness :
    ∃ out e,
      computeCompliance ⟨"pc", "Mod", none, "modular", "pre2026", "2024-01-15"⟩
          1729036800000 = .ok out ∧
      out.expiresAt = some e ∧
      (out.status = "expiring" ↔
        1729036800000 ≤ e.getTime ∧ e.getTime - 1729036800000 < 165 * msPerDay) ∧
      (out.status = "valid" ↔ 165 * msPerDay ≤ e.getTime - 1729036800000) :=
  expiring_boundary ⟨"pc", "Mod", none, "modular", "pre2026", "2024-01-15"⟩
    1729036800000 ⟨2024, 1, 15⟩ rfl (by decide)

/-! ## C4 — months remaining is the rounded 30-day approximation -/

/-- Exact-rational form of the months-left computation:
`Math.max(0, Math.round(d / (1000*60*60*24*30)))` is the clamped
round-half-up of days-divided-by-30. -/
lemma jsMonthsLeft_eq_round (d : Int) :
    jsMonthsLeft d = max 0 (round ((d : ℚ) / ((msPerDay : Int) : ℚ) / 30)) := by
  rw [round_eq]
  have h2 : (d : ℚ) / ((msPerDay : Int) : ℚ) / 30 + 1 / 2
      = ((2 * d + 2592000000 : Int) : ℚ) / ((5184000000 : ℕ) : ℚ) := by
    push_cast [msPerDay]
    field_simp
    ring
  rw [h2, Rat.floor_intCast_div_natCast]
  simp only [jsMonthsLeft, msPerMonth]
  norm_num

/-- C4: for every pre-cutover project, `monthsLeft` equals
`round((expiresAt − now) in days / 30)` clamped to be ≥ 0 — the spec-side
30-day-per-month approximation `specMonthsRemaining`, not a
calendar-accurate month count. -/
theorem months_remaining_spec (p : Project) (now : Int) (c : Civil)
    (hc : p.cycle = "pre2026") (hp : parseISODate p.approvalDate = some c) :
    ∃ out e, computeCompliance p now = .ok out ∧ out.expiresAt = some e ∧
      out.monthsLeft = some (specMonthsRemaining e.getTime now) := by
  have hc2 : ¬ p.cycle = "post2026" := by rw [hc]; decide
  set e := addMonths c (if p.projectType = "housing" then 36 else 15) with he
  set ml := jsMonthsLeft (e.getTime - now) with hml
  refine ⟨⟨p, some e,
      (if e.getTime < now then "expired" else if ml < 6 then "expiring" else "valid"),
      some ml⟩, e, ?_, rfl, ?_⟩
  · simp [computeCompliance, hc2, hp, he, hml]
  · rw [hml, specMonthsRemaining, jsMonthsLeft_eq_round]

/-- Witness for `months_remaining_spec`: the housing project approved
2022-03-15, evaluated at 2024-06-01. -/
theorem months_remaining_spec_witness :
    ∃ out e,
      computeCompliance ⟨"p1", "2022 Plan", none, "housing", "pre2026", "2022-03-15"⟩
          1717200000000 = .ok out ∧
      out.expiresAt = some e ∧
      out.monthsLeft = some (specMonthsRemaining e.getTime 1717200000000) :=
  months_remaining_spec ⟨"p1", "2022 Plan", none, "housing", "pre2026", "2022-03-15"⟩
    1717200000000 ⟨2022, 3, 15⟩ rfl (by decide)

/-! ## C7 — the classification never regresses as time advances -/

/-- Months left never grow when the time difference shrinks. -/
lemma jsMonthsLeft_antitone {d1 d2 : Int} (h : d1 ≤ d2) :
    jsMonthsLeft d1 ≤ jsMonthsLeft d2 := by
  simp only [jsMonthsLeft, msPerMonth]
  omega

/-- C7: holding the project fixed and advancing `now` never decreases
the risk rank (`valid < expiring < expired`): the classification never
regresses from `expired` or `expiring` back toward `valid`. -/
theorem classification_monotone (p : Project) (now1 now2 : Int) (c : Civil)
    (hc : p.cycle = "pre2026") (hp : parseISODate p.approvalDate = some c)
    (hle : now1 ≤ now2) :
    ∃ o1 o2, computeCompliance p now1 = .ok o1 ∧ computeCompliance p now2 = .ok o2 ∧
      riskRank o1.status ≤ riskRank o2.status := by
  have hc2 : ¬ p.cycle = "post2026" := by rw [hc]; decide
  set e := addMonths c (if p.projectType = "housing" then 36 else 15) with he
  refine ⟨⟨p, some e,
      (if e.getTime < now1 then "expired"
       else if jsMonthsLeft (e.getTime - now1) < 6 then "expiring" else "valid"),
      some (jsMonthsLeft (e.getTime - now1))⟩,
    ⟨p, some e,
      (if e.getTime < now2 then "expired"
       else if jsMonthsLeft (e.getTime - now2) < 6 then "expiring" else "valid"),
      some (jsMonthsLeft (e.getTime - now2))⟩, ?_, ?_, ?_⟩
  · simp [computeCompliance, hc2, hp, he]
  · simp [computeCompliance, hc2, hp, he]
  · have hmono : jsMonthsLeft (e.getTime - now2) ≤ jsMonthsLeft (e.getTime - now1) :=
      jsMonthsLeft_antitone (by omega)
    by_cases h1 : e.getTime < now1
    · have h2 : e.getTime < now2 := by omega
      simp [h1, h2, riskRank]
    · by_cases h2 : e.getTime < now2
      · simp only [h1, h2, if_true, if_false, riskRank]
        split_ifs <;> decide
      · by_cases h3 : jsMonthsLeft (e.getTime - now1) < 6
        · have h4 : jsMonthsLeft (e.getTime - now2) < 6 := by omega
          simp [h1, h2, h3, h4, riskRank]
        · by_cases h4 : jsMonthsLeft (e.getTime - now2) < 6
          · simp [h1, h2, h3, h4, riskRank]
          · simp [h1, h2, h3, h4, riskRank]

/-- Witness for `classification_monotone`: the housing project approved
2022-03-15 between 2024-06-01 and 2025-01-01. -/
theorem classification_monotone_witness :
    ∃ o1 o2,
      computeCompliance ⟨"p1", "2022 Plan", none, "housing", "pre2026", "2022-03-15"⟩
          1717200000000 = .ok o1 ∧
      computeCompliance ⟨"p1", "2022 Plan", none, "housing", "pre2026", "2022-03-15"⟩
          1735689600000 = .ok o2 ∧
      riskRank o1.status ≤ riskRank o2.status :=
  classification_monotone ⟨"p1", "2022 Plan", none, "housing", "pre2026", "2022-03-15"⟩
    1717200000000 1735689600000 ⟨2022, 3, 15⟩ rfl (by decide) (by decide)

/-! ## C2 — expiry is calendar month addition with day overflow -/

/-- The day-number formula is linear in the day-of-month field. -/
lemma daysFromCivil_day_linear (y m d : Int) :
    daysFromCivil ⟨y, m, d⟩ = daysFromCivil ⟨y, m, 1⟩ + (d - 1) := by
  simp only [daysFromCivil]
  split <;> omega

/-- Arithmetic characterisation of the leap-year test. -/
lemma isLeap_iff (y : Int) :
    isLeap y = true ↔ (y % 4 = 0 ∧ (y % 100 ≠ 0 ∨ y % 400 = 0)) := by
  simp [isLeap, Bool.and_eq_true, Bool.or_eq_true, beq_iff_eq, bne_iff_ne]

/-- No month is longer than 31 days. -/
lemma daysInMonth_le_31 (y m : Int) : daysInMonth y m ≤ 31 := by
  simp only [daysInMonth]
  split_ifs <;> omega

/-- The months shorter than 31 days. -/
lemma daysInMonth_short_month (y m : Int) (h : daysInMonth y m < 31) :
    m = 2 ∨ m = 4 ∨ m = 6 ∨ m = 9 ∨ m = 11 := by
  simp only [daysInMonth] at h
  split_ifs at h <;> omega

/-- March 1 sits `daysInMonth y 2` days after February 1 of the same
year, in both leap and common years. -/
lemma daysFromCivil_march (y : Int) :
    daysFromCivil ⟨y, 3, 1⟩ = daysFromCivil ⟨y, 2, 1⟩ + daysInMonth y 2 := by
  have hd : daysInMonth y 2 = if isLeap y then 29 else 28 := by norm_num [daysInMonth]
  rw [hd]
  cases hL : isLeap y with
  | false =>
      have h4 : ¬ (y % 4 = 0 ∧ (y % 100 ≠ 0 ∨ y % 400 = 0)) := by
        rw [← isLeap_iff, hL]; simp
      simp only [daysFromCivil, hL, Bool.false_eq_true, if_false]
      norm_num
      omega
  | true =>
      have h4 : y % 4 = 0 ∧ (y % 100 ≠ 0 ∨ y % 400 = 0) := (isLeap_iff y).mp hL
      simp only [daysFromCivil, hL, if_true]
      norm_num
      omega

/-- For every month a day can overflow into, the first of the next month
sits `daysInMonth` days after the first of the month. -/
lemma daysFromCivil_next_month (y m : Int)
    (h : m = 2 ∨ m = 4 ∨ m = 6 ∨ m = 9 ∨ m = 11) :
    daysFromCivil ⟨y, m + 1, 1⟩ = daysFromCivil ⟨y, m, 1⟩ + daysInMonth y m := by
  rcases h with h | h | h | h | h <;> subst h
  · exact daysFromCivil_march y
  all_goals (simp only [daysFromCivil, daysInMonth]; norm_num; omega)

/-- Core of C2: for any start date whose day-of-month is at most 31,
the date produced by the `setMonth`-style `addMonths` denotes exactly
the day number the spec prescribes — first of the target month plus
`(day − 1)` further days, the "set month, let the day overflow"
semantics. -/
lemma addMonths_days (c : Civil) (n : Int) (hd31 : c.day ≤ 31) :
    daysFromCivil (addMonths c n) = specExpiryDay c n := by
  simp only [addMonths, specExpiryDay]
  set y2 := c.year + (c.month - 1 + n) / 12 with hy2
  set m2 := (c.month - 1 + n) % 12 + 1 with hm2
  by_cases hle : c.day ≤ daysInMonth y2 m2
  · rw [if_pos hle]
    exact daysFromCivil_day_linear y2 m2 c.day
  · rw [if_neg hle]
    have hlt : daysInMonth y2 m2 < c.day := by omega
    have h31 : daysInMonth y2 m2 < 31 := by omega
    have hset := daysInMonth_short_month y2 m2 h31
    have hne12 : ¬ m2 = 12 := by rcases hset with h | h | h | h | h <;> omega
    rw [if_neg hne12]
    rw [daysFromCivil_day_linear y2 (m2 + 1) (c.day - daysInMonth y2 m2)]
    rw [daysFromCivil_next_month y2 m2 hset]
    omega

/-- A day-of-month delivered by the parser fits its month. -/
lemma parseISODate_day_le {s : String} {c : Civil}
    (h : parseISODate s = some c) : c.day ≤ daysInMonth c.year c.month := by
  unfold parseISODate at h
  split at h
  · dsimp only at h
    split_ifs at h with h1 h2
    injection h with h3
    subst h3
    exact h2.2.2.2
  · exact absurd h (by simp)

/-- C2: for every pre-cutover project, `expiresAt` is `approvalDate`
plus 36 calendar months for `housing` and plus 15 for `modular`, with
set-month-then-let-day-overflow semantics (`specExpiryDay`), and this
differs from adding N × 30 days (Jan 31 2022 + 1 month lands on
Mar 3 2022, not 30 days after Jan 31). -/
theorem expiry_calendar_addition (p : Project) (now : Int) (c : Civil)
    (hc : p.cycle = "pre2026") (hp : parseISODate p.approvalDate = some c) :
    ∃ out, computeCompliance p now = .ok out ∧
      (p.projectType = "housing" →
        out.expiresAt = some (addMonths c 36) ∧
        daysFromCivil (addMonths c 36) = specExpiryDay c 36) ∧
      (p.projectType = "modular" →
        out.expiresAt = some (addMonths c 15) ∧
        daysFromCivil (addMonths c 15) = specExpiryDay c 15) ∧
      daysFromCivil (addMonths ⟨2022, 1, 31⟩ 1) = daysFromCivil ⟨2022, 3, 3⟩ ∧
      daysFromCivil (addMonths ⟨2022, 1, 31⟩ 1) ≠ daysFromCivil ⟨2022, 1, 31⟩ + 1 * 30 := by
  have hc2 : ¬ p.cycle = "post2026" := by rw [hc]; decide
  have hd31 : c.day ≤ 31 := le_trans (parseISODate_day_le hp) (daysInMonth_le_31 _ _)
  set e := addMonths c (if p.projectType = "housing" then 36 else 15) with he
  set ml := jsMonthsLeft (e.getTime - now) with hml
  refine ⟨⟨p, some e,
      (if e.getTime < now then "expired" else if ml < 6 then "expiring" else "valid"),
      some ml⟩, ?_, ?_, ?_, by decide, by decide⟩
  · simp [computeCompliance, hc2, hp, he, hml]
  · intro ht
    refine ⟨?_, addMonths_days c 36 hd31⟩
    simp [he, ht]
  · intro ht
    have hth : ¬ p.projectType = "housing" := by rw [ht]; decide
    refine ⟨?_, addMonths_days c 15 hd31⟩
    simp [he, hth]

/-- Witness for `expiry_calendar_addition`: the housing project approved
2022-03-15, evaluated at 2024-06-01. -/
theorem expiry_calendar_addition_witness :
    ∃ out,
      computeCompliance ⟨"p1", "2022 Plan", none, "housing", "pre2026", "2022-03-15"⟩
          1717200000000 = .ok out ∧
      ((⟨"p1", "2022 Plan", none, "housing", "pre2026", "2022-03-15"⟩ : Project).projectType
          = "housing" →
        out.expiresAt = some (addMonths ⟨2022, 3, 15⟩ 36) ∧
        daysFromCivil (addMonths ⟨2022, 3, 15⟩ 36) = specExpiryDay ⟨2022, 3, 15⟩ 36) ∧
      ((⟨"p1", "2022 Plan", none, "housing", "pre2026", "2022-03-15"⟩ : Project).projectType
          = "modular" →
        out.expiresAt = some (addMonths ⟨2022, 3, 15⟩ 15) ∧
        daysFromCivil (addMonths ⟨2022, 3, 15⟩ 15) = specExpiryDay ⟨2022, 3, 15⟩ 15) ∧
      daysFromCivil (addMonths ⟨2022, 1, 31⟩ 1) = daysFromCivil ⟨2022, 3, 3⟩ ∧
      daysFromCivil (addMonths ⟨2022, 1, 31⟩ 1) ≠ daysFromCivil ⟨2022, 1, 31⟩ + 1 * 30 :=
  expiry_calendar_addition ⟨"p1", "2022 Plan", none, "housing", "pre2026", "2022-03-15"⟩
    1717200000000 ⟨2022, 3, 15⟩ rfl (by decide)
